import Mathlib

/-!
Verification of the LinkedinPosts repository: two Streamlit front-ends
(`streamlit_app.py`, `image_masking_streamlit.py`) that validate uploaded
images, store them in temporary files, register them with a remote API,
compose a single generation request, extract base64-encoded images from the
response, and clean up the temporary files; plus two launcher scripts
(`run_image_generator.py`, `mask_runner.py`).

Bytes are modelled as `Nat` values below 256, byte strings as `List Nat`,
Python strings as Lean `String`.
-/

namespace LinkedinPosts

/-! ### Base64 encoding and decoding

Model of Python's `base64.b64encode(data).decode("utf-8")` (as used by
`encode_image`) and `base64.b64decode` (as used on each `result` field of the
API response). Three input bytes become four alphabet characters; a final
group of one or two bytes is padded with `'='`. -/

/-- The 64-character base64 alphabet, in index order. -/
def b64Alphabet : List Char :=
  ['A', 'B', 'C', 'D', 'E', 'F', 'G', 'H', 'I', 'J', 'K', 'L', 'M',
   'N', 'O', 'P', 'Q', 'R', 'S', 'T', 'U', 'V', 'W', 'X', 'Y', 'Z',
   'a', 'b', 'c', 'd', 'e', 'f', 'g', 'h', 'i', 'j', 'k', 'l', 'm',
   'n', 'o', 'p', 'q', 'r', 's', 't', 'u', 'v', 'w', 'x', 'y', 'z',
   '0', '1', '2', '3', '4', '5', '6', '7', '8', '9', '+', '/']

/-- The alphabet character for a sextet value. -/
def sextetChar (n : Nat) : Char := b64Alphabet.getD n 'A'

/-- The sextet value of an alphabet character. -/
def charSextet (c : Char) : Nat := b64Alphabet.indexOf c

/-- Encode a byte string into base64 characters, three bytes per group,
padding a final group of one or two bytes with `'='`. -/
def encodeGroups : List Nat → List Char
  | [] => []
  | [a] =>
      [sextetChar (a / 4), sextetChar (a % 4 * 16), '=', '=']
  | [a, b] =>
      [sextetChar (a / 4), sextetChar (a % 4 * 16 + b / 16),
       sextetChar (b % 16 * 4), '=']
  | a :: b :: c :: rest =>
      sextetChar (a / 4) :: sextetChar (a % 4 * 16 + b / 16) ::
      sextetChar (b % 16 * 4 + c / 64) :: sextetChar (c % 64) ::
      encodeGroups rest

/-- Decode base64 characters into a byte string, four characters per group,
honouring `'='` padding in the final group. -/
def decodeGroups : List Char → List Nat
  | w :: x :: y :: z :: rest =>
      if z = '=' then
        if y = '=' then
          [charSextet w * 4 + charSextet x / 16]
        else
          [charSextet w * 4 + charSextet x / 16,
           charSextet x % 16 * 16 + charSextet y / 4]
      else
        (charSextet w * 4 + charSextet x / 16) ::
        (charSextet x % 16 * 16 + charSextet y / 4) ::
        (charSextet y % 4 * 64 + charSextet z) ::
        decodeGroups rest
  | _ => []

/-- Model of `encode_image`: read the file's bytes, base64-encode them and
decode the result as a UTF-8 string (the alphabet is ASCII, so this is just
the character string). -/
def encode_image (bytes : List Nat) : String := ⟨encodeGroups bytes⟩

/-- Model of `base64.b64decode` applied to a Python string. -/
def b64decodeStr (s : String) : List Nat := decodeGroups s.data

/-! ### Uploaded files and validation (`validate_image_file`) -/

/-- An uploaded file as the Streamlit uploader presents it: declared name,
declared MIME type, declared size in bytes, and content bytes. -/
structure UploadedFile where
  name : String
  type : String
  size : Nat
  content : List Nat

/-- The MIME types accepted by both apps' `validate_image_file`. -/
def allowedTypes : List String :=
  ["image/jpeg", "image/jpg", "image/png", "image/gif", "image/webp"]

/-- Model of `validate_image_file`: `none` stands for Python `None`; the
result pairs the boolean verdict with the message string. -/
def validate_image_file : Option UploadedFile → Bool × String
  | none => (false, "No file uploaded")
  | some u =>
    if u.size > 20 * 1024 * 1024 then
      (false, "File size must be less than 20MB")
    else if u.type ∈ allowedTypes then
      (true, "File is valid")
    else
      (false, "File type " ++ u.type ++ " not supported. Use: " ++
        String.intercalate ", " allowedTypes)

/-! ### Temporary file paths (`save_uploaded_file`)

`save_uploaded_file` calls `tempfile.NamedTemporaryFile(delete=False,
suffix="." + name.split(".")[-1])`. The library picks a fresh stem (directory
plus a unique random basename, containing no dot); the repository's code
contributes the suffix. The stem is an input of the model. -/

/-- The characters after the last dot of a name, or the whole name when it
has no dot: embeds Python's `name.split(".")[-1]`. -/
def lastExtChars (cs : List Char) : List Char :=
  (cs.reverse.takeWhile (fun c => c ≠ '.')).reverse

/-- Python `name.split(".")[-1]` on strings. -/
def lastDotComponent (name : String) : String := ⟨lastExtChars name.data⟩

/-- Model of `save_uploaded_file`: the path of the temporary file it creates,
given the fresh stem chosen by `tempfile` and the uploaded file's name. -/
def save_uploaded_file_path (stem : String) (name : String) : String :=
  stem ++ "." ++ lastDotComponent name

/-! ### API responses and the response extractor -/

/-- One entry of the API response's `output` list: its kind tag and its
`result` payload (a base64 string, meaningful for image-generation calls). -/
structure OutputEntry where
  type : String
  result : String

/-- The list comprehension filtering `response.output` down to entries whose
`type` is `"image_generation_call"`, as both apps write it. -/
def imageGenerationCalls (outputs : List OutputEntry) : List OutputEntry :=
  outputs.filter (fun o => o.type == "image_generation_call")

/-- The base64 payloads of the image-generation entries, in response order:
`[output.result for output in ... if output.type == "image_generation_call"]`. -/
def extractImageData (outputs : List OutputEntry) : List String :=
  (imageGenerationCalls outputs).map OutputEntry.result

/-- The decoded image bytes the apps derive from a response, in order. -/
def extractImages (outputs : List OutputEntry) : List (List Nat) :=
  (extractImageData outputs).map b64decodeStr

/-! ### Request composition -/

/-- One element of the request's `content` array. -/
inductive ContentItem where
  | inputText (text : String)
  | inputImageUrl (url : String)
  | inputImageFileId (fileId : String)
deriving DecidableEq, Repr

/-- Whether a content item references an image (inline or remote). -/
def ContentItem.isImageRef : ContentItem → Bool
  | .inputImageUrl _ => true
  | .inputImageFileId _ => true
  | .inputText _ => false

/-- Whether a content item is a text entry. -/
def ContentItem.isText : ContentItem → Bool
  | .inputText _ => true
  | _ => false

/-- One element of the request's `tools` array: the tool type, the optional
`quality` option and the optional `input_image_mask` file id. -/
structure ToolSpec where
  type : String
  quality : Option String
  inputImageMaskFileId : Option String
deriving DecidableEq, Repr

/-- An outbound request to `client.responses.create`. -/
structure GenRequest where
  model : String
  content : List ContentItem
  tools : List ToolSpec
deriving DecidableEq, Repr

/-- The generator app's content array: it starts as `[{input_text, prompt}]`,
then one loop appends an inline data-URL entry per base64 image, then a
second loop appends a `file_id` entry per registered file. -/
def buildGenContent (prompt : String) (base64Images fileIds : List String) :
    List ContentItem :=
  let c0 := [ContentItem.inputText prompt]
  let c1 := base64Images.foldl
    (fun acc b => acc ++ [ContentItem.inputImageUrl ("data:image/jpeg;base64," ++ b)]) c0
  fileIds.foldl (fun acc fid => acc ++ [ContentItem.inputImageFileId fid]) c1

/-- The single request the generator app sends (`streamlit_app.py`). -/
def buildGenRequest (prompt : String) (base64Images fileIds : List String) :
    GenRequest :=
  { model := "gpt-4o",
    content := buildGenContent prompt base64Images fileIds,
    tools := [⟨"image_generation", none, none⟩] }

/-- The single request the masking app sends (`image_masking_streamlit.py`):
text and the base image's file id in `content`; the mask file id and the
quality option inside the `image_generation` tool. -/
def buildMaskRequest (prompt baseFileId maskFileId quality : String) :
    GenRequest :=
  { model := "gpt-4o",
    content := [ContentItem.inputText prompt,
                ContentItem.inputImageFileId baseFileId],
    tools := [⟨"image_generation", some quality, some maskFileId⟩] }

/-- The quality values offered by the masking app's selectbox. -/
def qualityOptions : List String := ["standard", "high"]

/-! ### The generator app's request handler (`streamlit_app.py`, `main`)

The handler body is the block under the Generate button: a per-file loop
(save to temp file, base64-encode, register with `client.files.create`),
one `client.responses.create` call, the display step, and a `finally` block
deleting every accumulated temp file with each `os.unlink` wrapped in a
bare `try/except: pass`. External effects that can raise — `create_file`
and `responses.create` — and the stems `tempfile` picks are inputs of the
environment. -/

/-- The environment of one generator-app handler run. `registerOk i` is the
outcome of `create_file` for the `i`-th file (`none` = the call raises);
`generateOk` is the outcome of `responses.create`; `unlinkOk p` tells whether
deleting path `p` succeeds; `stems i` is the fresh stem `tempfile` picks for
the `i`-th temporary file. -/
structure GenEnv where
  validFiles : List UploadedFile
  prompt : String
  stems : Nat → String
  registerOk : Nat → Option String
  generateOk : Option (List OutputEntry)
  unlinkOk : String → Bool

/-- The lists accumulated by the generator app's per-file loop, and whether
the loop was aborted by a `create_file` exception. -/
structure LoopState where
  tempFiles : List String
  base64Images : List String
  fileIds : List String
  aborted : Bool
deriving Repr

/-- The per-file loop: for each file, save it (append the temp path), encode
it (append the base64 string), then register it (append the file id) — a
`create_file` exception stops the loop after the current file's temp path and
base64 string were appended but before its file id was. -/
def processFiles (stems : Nat → String) (registerOk : Nat → Option String) :
    List UploadedFile → Nat → LoopState
  | [], _ => ⟨[], [], [], false⟩
  | f :: fs, i =>
    let tp := save_uploaded_file_path (stems i) f.name
    let b := encode_image f.content
    match registerOk i with
    | none => ⟨[tp], [b], [], true⟩
    | some fid =>
      let r := processFiles stems registerOk fs (i + 1)
      ⟨tp :: r.tempFiles, b :: r.base64Images, fid :: r.fileIds, r.aborted⟩

/-- The temp-file paths appended during a generator-app handler run. -/
def genTempFiles (env : GenEnv) : List String :=
  (processFiles env.stems env.registerOk env.validFiles 0).tempFiles

/-- The `finally` block's cleanup loop: one `os.unlink` attempt per
accumulated path, each wrapped in `try/except: pass`, so every attempt is
made and no failure escapes. The result records each attempted path and
whether its deletion succeeded. -/
def cleanupTempFiles (paths : List String) (unlinkOk : String → Bool) :
    List (String × Bool) :=
  paths.map (fun p => (p, unlinkOk p))

/-- What the generator app shows after the response arrives. -/
inductive GenOutcome where
  | displayed (images : List (List Nat))
  | noImages
  | errorShown
deriving DecidableEq, Repr

/-- The generator app's post-response step: `if image_data:` display every
decoded image, `else` report "No images were generated" (a message, not an
exception). -/
def displayStep (outputs : List OutputEntry) : GenOutcome :=
  match extractImageData outputs with
  | [] => GenOutcome.noImages
  | ds => GenOutcome.displayed (ds.map b64decodeStr)

/-- The observable trace of one generator-app handler run. -/
structure HandlerRun where
  requestsSent : List GenRequest
  deleteAttempts : List (String × Bool)
  outcome : GenOutcome

/-- One run of the generator app's handler, following the code's control
flow: a registration failure skips to the `finally` cleanup with the outer
`except` showing the error; a generation failure likewise, after the one
request was issued; otherwise the display step runs. Every branch passes
through the `finally` cleanup of all accumulated temp files. -/
def runGenerateHandler (env : GenEnv) : HandlerRun :=
  let s := processFiles env.stems env.registerOk env.validFiles 0
  if s.aborted then
    { requestsSent := [],
      deleteAttempts := cleanupTempFiles s.tempFiles env.unlinkOk,
      outcome := GenOutcome.errorShown }
  else
    let req := buildGenRequest env.prompt s.base64Images s.fileIds
    match env.generateOk with
    | none =>
      { requestsSent := [req],
        deleteAttempts := cleanupTempFiles s.tempFiles env.unlinkOk,
        outcome := GenOutcome.errorShown }
    | some outputs =>
      { requestsSent := [req],
        deleteAttempts := cleanupTempFiles s.tempFiles env.unlinkOk,
        outcome := displayStep outputs }

/-! ### The masking app's request handler (`image_masking_streamlit.py`) -/

/-- The environment of one masking-app handler run: base and mask uploads,
prompt, output filename, selected quality, the stems `tempfile` picks, the
outcomes of the two `create_file` calls and of `responses.create`, and the
deletion oracle. -/
structure MaskEnv where
  baseImage : UploadedFile
  maskImage : UploadedFile
  prompt : String
  outputFilename : String
  quality : String
  stems : Nat → String
  registerBase : Option String
  registerMask : Option String
  generateOk : Option (List OutputEntry)
  unlinkOk : String → Bool

/-- What the masking app shows after the response arrives. -/
inductive MaskOutcome where
  | displayedOne (image : List Nat)
  | noImage
  | errorShown
deriving DecidableEq, Repr

/-- The observable trace of one masking-app handler run, including the files
written to the working directory (`open(output_filename, "wb")`). -/
structure MaskRun where
  requestsSent : List GenRequest
  deleteAttempts : List (String × Bool)
  savedOutputs : List (String × List Nat)
  outcome : MaskOutcome

/-- The two temp-file paths the masking app appends (base first, mask
second), both before any `create_file` call. -/
def maskTempFiles (env : MaskEnv) : List String :=
  [save_uploaded_file_path (env.stems 0) env.baseImage.name,
   save_uploaded_file_path (env.stems 1) env.maskImage.name]

/-- One run of the masking app's handler, following the code's control flow:
both uploads are saved to temp files, both are registered (either
`create_file` may raise), one request is composed and sent, and on success
only `image_data[0]` is decoded, displayed, offered for download and written
to the output filename. Every branch passes through the `finally` cleanup. -/
def runMaskHandler (env : MaskEnv) : MaskRun :=
  let tmps := maskTempFiles env
  match env.registerBase with
  | none =>
    { requestsSent := [],
      deleteAttempts := cleanupTempFiles tmps env.unlinkOk,
      savedOutputs := [],
      outcome := MaskOutcome.errorShown }
  | some baseId =>
    match env.registerMask with
    | none =>
      { requestsSent := [],
        deleteAttempts := cleanupTempFiles tmps env.unlinkOk,
        savedOutputs := [],
        outcome := MaskOutcome.errorShown }
    | some maskId =>
      let req := buildMaskRequest env.prompt baseId maskId env.quality
      match env.generateOk with
      | none =>
        { requestsSent := [req],
          deleteAttempts := cleanupTempFiles tmps env.unlinkOk,
          savedOutputs := [],
          outcome := MaskOutcome.errorShown }
      | some outputs =>
        match extractImageData outputs with
        | [] =>
          { requestsSent := [req],
            deleteAttempts := cleanupTempFiles tmps env.unlinkOk,
            savedOutputs := [],
            outcome := MaskOutcome.noImage }
        | d :: _ =>
          { requestsSent := [req],
            deleteAttempts := cleanupTempFiles tmps env.unlinkOk,
            savedOutputs := [(env.outputFilename, b64decodeStr d)],
            outcome := MaskOutcome.displayedOne (b64decodeStr d) }

/-! ### Launcher scripts (`run_image_generator.py`, `mask_runner.py`) -/

/-- The packages both launchers require. -/
def requiredPackages : List String := ["streamlit", "openai", "requests", "PIL"]

/-- Model of `check_dependencies`: collect the required packages that fail
to load and succeed exactly when that list is empty. -/
def check_dependencies (installed : String → Bool) : Bool :=
  (requiredPackages.filter (fun p => !installed p)).isEmpty

/-- How the `subprocess.run` call that starts the Streamlit server ends:
normal completion, `KeyboardInterrupt`, or some other exception. -/
inductive RunBehavior where
  | completes
  | interrupted
  | raises
deriving DecidableEq, Repr

/-- A launcher's observable outcome: `exit1` for `sys.exit(1)`, or the
server-run record (script, bind address, port) when the server was started
and the launcher did not exit with an error. -/
inductive LaunchResult where
  | exit1
  | ranServer (script : String) (address : String) (port : Nat)
deriving DecidableEq, Repr

/-- Common shape of both launchers' `main`: exit 1 when `check_dependencies`
fails; otherwise start the server on `localhost` at the fixed port; a
`KeyboardInterrupt` is caught and ends the run normally, any other exception
from the run leads to exit 1. -/
def launcherMain (script : String) (port : Nat) (installed : String → Bool)
    (b : RunBehavior) : LaunchResult :=
  if !check_dependencies installed then
    LaunchResult.exit1
  else
    match b with
    | RunBehavior.raises => LaunchResult.exit1
    | _ => LaunchResult.ranServer script "localhost" port

/-- `run_image_generator.py`'s `main`. -/
def generatorLauncherMain (installed : String → Bool) (b : RunBehavior) :
    LaunchResult :=
  launcherMain "streamlit_app.py" 8501 installed b

/-- `mask_runner.py`'s `main`. -/
def maskLauncherMain (installed : String → Bool) (b : RunBehavior) :
    LaunchResult :=
  launcherMain "image_masking_streamlit.py" 8502 installed b

/-! ## Theorems -/

/-- Decoding an alphabet character recovers the sextet it encodes. -/
theorem charSextet_sextetChar : ∀ n : Nat, n < 64 → charSextet (sextetChar n) = n := by
  decide

/-- No sextet below 64 is encoded by the padding character. -/
theorem sextetChar_ne_pad : ∀ n : Nat, n < 64 → sextetChar n ≠ '=' := by
  decide

/-- Decoding inverts encoding on byte strings (all entries below 256). -/
theorem decodeGroups_encodeGroups :
    ∀ bs : List Nat, (∀ b ∈ bs, b < 256) → decodeGroups (encodeGroups bs) = bs
  | [], _ => rfl
  | [a], h => by
      have ha : a < 256 := h a (by simp)
      have h1 : a / 4 < 64 := by omega
      have h2 : a % 4 * 16 < 64 := by omega
      simp only [encodeGroups, decodeGroups]
      rw [if_pos trivial, if_pos trivial,
        charSextet_sextetChar _ h1, charSextet_sextetChar _ h2]
      have : a / 4 * 4 + a % 4 * 16 / 16 = a := by omega
      rw [this]
  | [a, b], h => by
      have ha : a < 256 := h a (by simp)
      have hb : b < 256 := h b (by simp)
      have h1 : a / 4 < 64 := by omega
      have h2 : a % 4 * 16 + b / 16 < 64 := by omega
      have h3 : b % 16 * 4 < 64 := by omega
      simp only [encodeGroups, decodeGroups]
      rw [if_pos trivial, if_neg (sextetChar_ne_pad _ h3),
        charSextet_sextetChar _ h1, charSextet_sextetChar _ h2,
        charSextet_sextetChar _ h3]
      have e1 : a / 4 * 4 + (a % 4 * 16 + b / 16) / 16 = a := by omega
      have e2 : (a % 4 * 16 + b / 16) % 16 * 16 + b % 16 * 4 / 4 = b := by omega
      rw [e1, e2]
  | a :: b :: c :: rest, h => by
      have ha : a < 256 := h a (by simp)
      have hb : b < 256 := h b (by simp)
      have hc : c < 256 := h c (by simp)
      have h1 : a / 4 < 64 := by omega
      have h2 : a % 4 * 16 + b / 16 < 64 := by omega
      have h3 : b % 16 * 4 + c / 64 < 64 := by omega
      have h4 : c % 64 < 64 := by omega
      have ih := decodeGroups_encodeGroups rest
        (fun x hx => h x (by simp [hx]))
      simp only [encodeGroups, decodeGroups]
      rw [if_neg (sextetChar_ne_pad _ h4),
        charSextet_sextetChar _ h1, charSextet_sextetChar _ h2,
        charSextet_sextetChar _ h3, charSextet_sextetChar _ h4, ih]
      have e1 : a / 4 * 4 + (a % 4 * 16 + b / 16) / 16 = a := by omega
      have e2 : (a % 4 * 16 + b / 16) % 16 * 16 + (b % 16 * 4 + c / 64) / 4 = b := by
        omega
      have e3 : (b % 16 * 4 + c / 64) % 4 * 64 + c % 64 = c := by omega
      rw [e1, e2, e3]

/-- Claim C7: encoding any byte string to base64 as `encode_image` does
(including the UTF-8 decode to a string) and then base64-decoding that string
reproduces the original bytes exactly. -/
theorem c7_base64_roundtrip (bytes : List Nat) (h : ∀ b ∈ bytes, b < 256) :
    b64decodeStr (encode_image bytes) = bytes :=
  decodeGroups_encodeGroups bytes h

/-- Witness for C7 at a concrete byte string. -/
theorem c7_base64_roundtrip_witness :
    b64decodeStr (encode_image [0, 1, 77, 255, 128]) = [0, 1, 77, 255, 128] :=
  c7_base64_roundtrip [0, 1, 77, 255, 128] (by decide)

/-- Claim C2: `validate_image_file` returns ok exactly when the file is
present, its declared size is at most 20 MiB and its declared MIME type is
allowed; and any upload strictly larger than 20 MiB is rejected regardless
of its MIME type. -/
theorem c2_validate_ok_iff (f : Option UploadedFile) :
    ((validate_image_file f).1 = true ↔
      ∃ u, f = some u ∧ u.size ≤ 20 * 1024 * 1024 ∧ u.type ∈ allowedTypes) ∧
    (∀ u, f = some u → 20 * 1024 * 1024 < u.size →
      (validate_image_file f).1 = false) := by
  cases f with
  | none => simp [validate_image_file]
  | some u =>
      simp only [validate_image_file, Option.some.injEq]
      constructor
      · split_ifs with h1 h2 <;> simp_all
      · intro v hv hsize
        subst hv
        split_ifs <;> simp_all

/-- Witness for C2: a small PNG passes, an over-20-MiB PNG fails. -/
theorem c2_validate_witness :
    (validate_image_file (some ⟨"a.png", "image/png", 100, []⟩)).1 = true ∧
    (validate_image_file (some ⟨"b.png", "image/png", 20971521, []⟩)).1 = false :=
  ⟨(c2_validate_ok_iff _).1.mpr ⟨_, rfl, by decide, by decide⟩,
   (c2_validate_ok_iff _).2 _ rfl (by decide)⟩

/-- Claim C3: the extractor keeps exactly the response entries tagged
`"image_generation_call"`, in their original order, decoding each entry's
`result` field from base64; an entry with any other tag contributes
nothing. -/
theorem c3_extractor_keeps_tagged (l1 l2 : List OutputEntry) (e : OutputEntry) :
    (e.type = "image_generation_call" →
      extractImages (l1 ++ e :: l2) =
        extractImages l1 ++ b64decodeStr e.result :: extractImages l2) ∧
    (e.type ≠ "image_generation_call" →
      extractImages (l1 ++ e :: l2) = extractImages (l1 ++ l2)) := by
  constructor
  · intro h
    simp [extractImages, extractImageData, imageGenerationCalls,
      List.filter_append, List.filter_cons, h]
  · intro h
    simp [extractImages, extractImageData, imageGenerationCalls,
      List.filter_append, List.filter_cons, h]

/-- Witness for C3: one tagged entry between untagged neighbours is kept and
decoded; an untagged entry contributes nothing. -/
theorem c3_extractor_keeps_tagged_witness :
    extractImages ([⟨"message", "Qg=="⟩] ++ ⟨"image_generation_call", "QQ=="⟩ :: []) =
      extractImages [⟨"message", "Qg=="⟩] ++
        b64decodeStr "QQ==" :: extractImages [] ∧
    extractImages ([] ++ (⟨"message", "Qg=="⟩ : OutputEntry) :: []) =
      extractImages ([] ++ []) :=
  ⟨(c3_extractor_keeps_tagged [⟨"message", "Qg=="⟩] [] ⟨"image_generation_call", "QQ=="⟩).1 rfl,
   (c3_extractor_keeps_tagged [] [] ⟨"message", "Qg=="⟩).2 (by decide)⟩

/-- A response with no tagged entry has an empty extraction. -/
theorem extractImageData_eq_nil (outputs : List OutputEntry)
    (h : ∀ o ∈ outputs, o.type ≠ "image_generation_call") :
    extractImageData outputs = [] := by
  simp only [extractImageData, imageGenerationCalls, List.map_eq_nil_iff,
    List.filter_eq_nil_iff]
  intro o ho
  simpa using h o ho

/-- Claim C4: on a response with zero `"image_generation_call"` entries the
extractor yields the empty sequence and both apps take the no-image error
branch — a reported message, not an exception aborting the session. -/
theorem c4_empty_result_soft (outputs : List OutputEntry)
    (h : ∀ o ∈ outputs, o.type ≠ "image_generation_call") :
    extractImages outputs = [] ∧
    displayStep outputs = GenOutcome.noImages ∧
    (∀ (env : MaskEnv) (baseId maskId : String),
      env.registerBase = some baseId → env.registerMask = some maskId →
      env.generateOk = some outputs →
      (runMaskHandler env).outcome = MaskOutcome.noImage) := by
  have hd := extractImageData_eq_nil outputs h
  refine ⟨by simp [extractImages, hd], by simp [displayStep, hd], ?_⟩
  intro env baseId maskId hb hm hg
  simp [runMaskHandler, hb, hm, hg, hd]

/-- A concrete masking-app environment whose response has no tagged entry. -/
def c4SampleMaskEnv : MaskEnv :=
  { baseImage := ⟨"base.png", "image/png", 100, [1]⟩,
    maskImage := ⟨"mask.png", "image/png", 100, [2]⟩,
    prompt := "add a red balloon",
    outputFilename := "masked_image.png",
    quality := "high",
    stems := fun _ => "/tmp/tmpstem",
    registerBase := some "file-base",
    registerMask := some "file-mask",
    generateOk := some [⟨"message", ""⟩],
    unlinkOk := fun _ => true }

/-- Witness for C4 at a concrete untagged response. -/
theorem c4_empty_result_soft_witness :
    extractImages [⟨"message", ""⟩] = [] ∧
    (runMaskHandler c4SampleMaskEnv).outcome = MaskOutcome.noImage :=
  ⟨(c4_empty_result_soft [⟨"message", ""⟩] (by decide)).1,
   (c4_empty_result_soft [⟨"message", ""⟩] (by decide)).2.2
     c4SampleMaskEnv "file-base" "file-mask" rfl rfl rfl⟩

/-- `check_dependencies` succeeds exactly when every required package
loads. -/
theorem check_dependencies_eq_true (installed : String → Bool) :
    check_dependencies installed = true ↔
      ∀ p ∈ requiredPackages, installed p = true := by
  simp [check_dependencies, List.isEmpty_iff, List.filter_eq_nil_iff]

/-- Claim C9: each launcher exits with code 1 when a required dependency
(streamlit, openai, requests, PIL) is missing or when running the UI server
raises an exception; otherwise it starts the server bound to `localhost` on
its fixed port (8501 for the generator, 8502 for the masking app). -/
theorem c9_launchers (installed : String → Bool) (b : RunBehavior) :
    ((¬ ∀ p ∈ requiredPackages, installed p = true) ∨ b = RunBehavior.raises →
      generatorLauncherMain installed b = LaunchResult.exit1 ∧
      maskLauncherMain installed b = LaunchResult.exit1) ∧
    ((∀ p ∈ requiredPackages, installed p = true) → b ≠ RunBehavior.raises →
      generatorLauncherMain installed b =
        LaunchResult.ranServer "streamlit_app.py" "localhost" 8501 ∧
      maskLauncherMain installed b =
        LaunchResult.ranServer "image_masking_streamlit.py" "localhost" 8502) := by
  constructor
  · rintro (hmiss | hraise)
    · have hc : check_dependencies installed = false := by
        rcases Bool.eq_false_or_eq_true (check_dependencies installed) with h | h
        · exact absurd ((check_dependencies_eq_true installed).1 h) hmiss
        · exact h
      constructor <;>
        simp [generatorLauncherMain, maskLauncherMain, launcherMain, hc]
    · subst hraise
      constructor <;>
        · simp only [generatorLauncherMain, maskLauncherMain, launcherMain]
          split_ifs <;> rfl
  · intro hall hb
    have hc : check_dependencies installed = true :=
      (check_dependencies_eq_true installed).2 hall
    cases b with
    | completes =>
        constructor <;>
          simp [generatorLauncherMain, maskLauncherMain, launcherMain, hc]
    | interrupted =>
        constructor <;>
          simp [generatorLauncherMain, maskLauncherMain, launcherMain, hc]
    | raises => exact absurd rfl hb

/-- Witness for C9: with everything installed the generator launcher starts
the server on port 8501; with nothing installed the masking launcher exits
with code 1. -/
theorem c9_launchers_witness :
    generatorLauncherMain (fun _ => true) RunBehavior.completes =
      LaunchResult.ranServer "streamlit_app.py" "localhost" 8501 ∧
    maskLauncherMain (fun _ => false) RunBehavior.completes =
      LaunchResult.exit1 :=
  ⟨((c9_launchers (fun _ => true) RunBehavior.completes).2
      (by intro p hp; rfl) (by intro h; cases h)).1,
   ((c9_launchers (fun _ => false) RunBehavior.completes).1
      (Or.inl (by intro h; cases h "streamlit" (by decide)))).2⟩

/-- Folding a one-element append over a list appends the mapped list. -/
theorem foldl_append_singleton {α β : Type} (f : α → β) :
    ∀ (l : List α) (init : List β),
      l.foldl (fun acc x => acc ++ [f x]) init = init ++ l.map f
  | [], init => by simp
  | x :: xs, init => by
      simp only [List.foldl_cons, List.map_cons]
      rw [foldl_append_singleton f xs (init ++ [f x])]
      simp

/-- The generator app's content array is the text entry, then the inline
base64 entries in order, then the file-id entries in order. -/
theorem buildGenContent_eq (prompt : String) (bs fids : List String) :
    buildGenContent prompt bs fids =
      ContentItem.inputText prompt ::
        (bs.map (fun b =>
          ContentItem.inputImageUrl ("data:image/jpeg;base64," ++ b)) ++
         fids.map ContentItem.inputImageFileId) := by
  simp [buildGenContent, foldl_append_singleton]

/-- When every registration succeeds, the per-file loop runs to completion
and collects, in upload order, the base64 encodings and the returned file
ids. -/
theorem processFiles_success (stems : Nat → String)
    (registerOk : Nat → Option String) (ids : Nat → String)
    (h : ∀ j, registerOk j = some (ids j)) :
    ∀ (fs : List UploadedFile) (i : Nat),
      (processFiles stems registerOk fs i).aborted = false ∧
      (processFiles stems registerOk fs i).base64Images =
        fs.map (fun f => encode_image f.content) ∧
      (processFiles stems registerOk fs i).fileIds =
        (List.range' i fs.length).map ids
  | [], i => by simp [processFiles]
  | f :: fs, i => by
      have ih := processFiles_success stems registerOk ids h fs (i + 1)
      simp only [processFiles, h i, List.map_cons, List.length_cons]
      refine ⟨ih.1, by rw [ih.2.1], ?_⟩
      rw [ih.2.2, List.range'_succ, List.map_cons]

/-- Claim C5: with N valid images and all registrations succeeding, the
generator app issues exactly one request, whose content list starts with the
text entry holding the prompt, followed by the N inline base64 entries in
upload order, followed by the N file-id entries in the same order — each
image is sent redundantly in both encodings within the single request. -/
theorem c5_multi_reference (env : GenEnv) (ids : Nat → String)
    (h : ∀ j, env.registerOk j = some (ids j)) :
    (runGenerateHandler env).requestsSent =
      [buildGenRequest env.prompt
        (env.validFiles.map (fun f => encode_image f.content))
        ((List.range' 0 env.validFiles.length).map ids)] ∧
    (∀ (p : String) (bs fids : List String),
      (buildGenRequest p bs fids).content =
        ContentItem.inputText p ::
          (bs.map (fun b =>
            ContentItem.inputImageUrl ("data:image/jpeg;base64," ++ b)) ++
           fids.map ContentItem.inputImageFileId)) := by
  have hp := processFiles_success env.stems env.registerOk ids h env.validFiles 0
  constructor
  · simp only [runGenerateHandler, hp.1, Bool.false_eq_true, if_false,
      hp.2.1, hp.2.2]
    cases env.generateOk <;> rfl
  · intro p bs fids
    exact buildGenContent_eq p bs fids

/-- A concrete generator-app environment with two valid uploads and all
registrations succeeding. -/
def c5SampleGenEnv : GenEnv :=
  { validFiles := [⟨"a.png", "image/png", 3, [1, 2, 3]⟩,
                   ⟨"b.jpg", "image/jpeg", 2, [4, 5]⟩],
    prompt := "a futuristic cityscape",
    stems := fun _ => "/tmp/tmpstem",
    registerOk := fun _ => some "file-xyz",
    generateOk := some [⟨"image_generation_call", "QQ=="⟩],
    unlinkOk := fun _ => true }

/-- Witness for C5 at the concrete two-file environment. -/
theorem c5_multi_reference_witness :
    (runGenerateHandler c5SampleGenEnv).requestsSent =
      [buildGenRequest c5SampleGenEnv.prompt
        (c5SampleGenEnv.validFiles.map (fun f => encode_image f.content))
        ((List.range' 0 c5SampleGenEnv.validFiles.length).map
          (fun _ => "file-xyz"))] :=
  (c5_multi_reference c5SampleGenEnv (fun _ => "file-xyz") (fun _ => rfl)).1

/-- Counterexample to C6 as stated: for the masked edit request built from
the claim's own scenario (prompt "add a red balloon", quality "high"), the
content array holds exactly one image reference — the base image — not two;
the mask reference lives in the request's tools entry instead. -/
theorem c6_content_counterexample :
    (buildMaskRequest "add a red balloon" "file-base" "file-mask" "high").content.countP
        ContentItem.isImageRef = 1 ∧
    ¬ ((buildMaskRequest "add a red balloon" "file-base" "file-mask" "high").content.countP
        ContentItem.isImageRef = 2) := by
  decide

/-- Claim C6 (amended): for a masked edit with registered base and mask
images and a quality drawn from the selectbox options, exactly one request is
issued; its content array has exactly one text entry (the prompt) and one
image reference (the base image, solely as a remote file reference); the
mask is referenced — also solely as a remote file reference — in the
request's `image_generation` tool entry, not in the content array; and the
quality option is one of {standard, high}. -/
theorem c6_masked_edit_request (env : MaskEnv) (baseId maskId : String)
    (hb : env.registerBase = some baseId) (hm : env.registerMask = some maskId)
    (hq : env.quality ∈ qualityOptions) :
    (runMaskHandler env).requestsSent =
      [buildMaskRequest env.prompt baseId maskId env.quality] ∧
    (buildMaskRequest env.prompt baseId maskId env.quality).content =
      [ContentItem.inputText env.prompt, ContentItem.inputImageFileId baseId] ∧
    (buildMaskRequest env.prompt baseId maskId env.quality).tools =
      [⟨"image_generation", some env.quality, some maskId⟩] ∧
    (env.quality = "standard" ∨ env.quality = "high") := by
  refine ⟨?_, rfl, rfl, ?_⟩
  · simp only [runMaskHandler, hb, hm]
    cases hgen : env.generateOk with
    | none => simp [hgen]
    | some outputs =>
        cases hext : extractImageData outputs with
        | nil => simp [hgen, hext]
        | cons d rest => simp [hgen, hext]
  · simpa [qualityOptions] using hq

/-- A concrete masking-app environment matching the C6 scenario. -/
def c6SampleMaskEnv : MaskEnv :=
  { baseImage := ⟨"base.jpg", "image/jpeg", 500 * 1024, [10, 20]⟩,
    maskImage := ⟨"mask.png", "image/png", 500 * 1024, [30, 40]⟩,
    prompt := "add a red balloon",
    outputFilename := "masked_image.png",
    quality := "high",
    stems := fun _ => "/tmp/tmpstem",
    registerBase := some "file-base",
    registerMask := some "file-mask",
    generateOk := some [⟨"image_generation_call", "QQ=="⟩],
    unlinkOk := fun _ => true }

/-- Witness for the amended C6 at the concrete scenario environment. -/
theorem c6_masked_edit_request_witness :
    (runMaskHandler c6SampleMaskEnv).requestsSent =
      [buildMaskRequest c6SampleMaskEnv.prompt "file-base" "file-mask"
        c6SampleMaskEnv.quality] ∧
    (buildMaskRequest c6SampleMaskEnv.prompt "file-base" "file-mask"
        c6SampleMaskEnv.quality).content =
      [ContentItem.inputText c6SampleMaskEnv.prompt,
       ContentItem.inputImageFileId "file-base"] :=
  ⟨(c6_masked_edit_request c6SampleMaskEnv "file-base" "file-mask" rfl rfl
      (by decide)).1,
   (c6_masked_edit_request c6SampleMaskEnv "file-base" "file-mask" rfl rfl
      (by decide)).2.1⟩

/-- Claim C10: when the masking app's response holds at least one
`"image_generation_call"` entry, only the first entry's result is decoded,
displayed and written to the output filename; the conclusion does not depend
on the remaining entries, which are discarded. -/
theorem c10_first_image_only (env : MaskEnv) (baseId maskId : String)
    (outputs : List OutputEntry) (d : String) (rest : List String)
    (hb : env.registerBase = some baseId) (hm : env.registerMask = some maskId)
    (hg : env.generateOk = some outputs)
    (hd : extractImageData outputs = d :: rest) :
    (runMaskHandler env).outcome = MaskOutcome.displayedOne (b64decodeStr d) ∧
    (runMaskHandler env).savedOutputs =
      [(env.outputFilename, b64decodeStr d)] := by
  constructor <;> simp [runMaskHandler, hb, hm, hg, hd]

/-- A concrete masking-app environment whose response holds two tagged
entries; only the first one is used. -/
def c10SampleMaskEnv : MaskEnv :=
  { baseImage := ⟨"base.png", "image/png", 100, [1]⟩,
    maskImage := ⟨"mask.png", "image/png", 100, [2]⟩,
    prompt := "add a red balloon",
    outputFilename := "masked_image.png",
    quality := "standard",
    stems := fun _ => "/tmp/tmpstem",
    registerBase := some "file-base",
    registerMask := some "file-mask",
    generateOk := some [⟨"image_generation_call", "QQ=="⟩,
                        ⟨"image_generation_call", "Qg=="⟩],
    unlinkOk := fun _ => true }

/-- Witness for C10: with two tagged results only the first ("QQ==") is shown
and saved. -/
theorem c10_first_image_only_witness :
    (runMaskHandler c10SampleMaskEnv).outcome =
      MaskOutcome.displayedOne (b64decodeStr "QQ==") ∧
    (runMaskHandler c10SampleMaskEnv).savedOutputs =
      [(c10SampleMaskEnv.outputFilename, b64decodeStr "QQ==")] :=
  c10_first_image_only c10SampleMaskEnv "file-base" "file-mask"
    [⟨"image_generation_call", "QQ=="⟩, ⟨"image_generation_call", "Qg=="⟩]
    "QQ==" ["Qg=="] rfl rfl rfl (by decide)

/-- The cleanup loop attempts a deletion of exactly the paths it is given,
in order. -/
theorem cleanupTempFiles_map_fst (paths : List String) (u : String → Bool) :
    (cleanupTempFiles paths u).map Prod.fst = paths := by
  simp [cleanupTempFiles, Function.comp_def]

/-- Every exit path of the generator handler runs the cleanup on the full
list of appended temp files. -/
theorem runGenerateHandler_deleteAttempts (env : GenEnv) :
    (runGenerateHandler env).deleteAttempts =
      cleanupTempFiles (genTempFiles env) env.unlinkOk := by
  simp only [runGenerateHandler, genTempFiles]
  split
  · rfl
  · cases env.generateOk <;> rfl

/-- Every exit path of the masking handler runs the cleanup on the full list
of appended temp files. -/
theorem runMaskHandler_deleteAttempts (env : MaskEnv) :
    (runMaskHandler env).deleteAttempts =
      cleanupTempFiles (maskTempFiles env) env.unlinkOk := by
  simp only [runMaskHandler]
  cases hb : env.registerBase with
  | none => simp
  | some baseId =>
      cases hm : env.registerMask with
      | none => simp
      | some maskId =>
          cases hgen : env.generateOk with
          | none => simp
          | some outputs =>
              cases hext : extractImageData outputs with
              | nil => simp [hext]
              | cons d rest => simp [hext]

/-- The generator handler's outcome and requests do not depend on whether
any deletion succeeds: deletion failures are swallowed. -/
theorem runGenerateHandler_unlink_irrelevant (env : GenEnv)
    (f : String → Bool) :
    (runGenerateHandler { env with unlinkOk := f }).outcome =
      (runGenerateHandler env).outcome ∧
    (runGenerateHandler { env with unlinkOk := f }).requestsSent =
      (runGenerateHandler env).requestsSent := by
  simp only [runGenerateHandler]
  cases habort : (processFiles env.stems env.registerOk env.validFiles 0).aborted with
  | true => simp [habort]
  | false => cases hgen : env.generateOk <;> simp [habort, hgen]

/-- The masking handler's outcome, saved files and requests do not depend on
whether any deletion succeeds: deletion failures are swallowed. -/
theorem runMaskHandler_unlink_irrelevant (env : MaskEnv) (f : String → Bool) :
    (runMaskHandler { env with unlinkOk := f }).outcome =
      (runMaskHandler env).outcome ∧
    (runMaskHandler { env with unlinkOk := f }).savedOutputs =
      (runMaskHandler env).savedOutputs ∧
    (runMaskHandler { env with unlinkOk := f }).requestsSent =
      (runMaskHandler env).requestsSent := by
  simp only [runMaskHandler]
  cases hb : env.registerBase with
  | none => simp
  | some baseId =>
      cases hm : env.registerMask with
      | none => simp
      | some maskId =>
          cases hgen : env.generateOk with
          | none => simp
          | some outputs =>
              cases hext : extractImageData outputs with
              | nil => simp [hext]
              | cons d rest => simp [hext]

/-- Claim C1: in every handler run of either app — success, registration
failure or generation failure — a delete attempt is made on exactly the temp
file paths appended during the run, in order, before the handler returns;
and the failure of any individual delete attempt is swallowed: it changes
neither the outcome, nor the requests sent, nor the saved files, nor the set
of paths whose deletion is attempted. -/
theorem c1_cleanup_invariant (env : GenEnv) (menv : MaskEnv)
    (f g : String → Bool) :
    ((runGenerateHandler env).deleteAttempts.map Prod.fst = genTempFiles env ∧
     (runMaskHandler menv).deleteAttempts.map Prod.fst = maskTempFiles menv) ∧
    ((runGenerateHandler { env with unlinkOk := f }).outcome =
       (runGenerateHandler { env with unlinkOk := g }).outcome ∧
     (runGenerateHandler { env with unlinkOk := f }).requestsSent =
       (runGenerateHandler { env with unlinkOk := g }).requestsSent ∧
     (runGenerateHandler { env with unlinkOk := f }).deleteAttempts.map Prod.fst =
       (runGenerateHandler { env with unlinkOk := g }).deleteAttempts.map Prod.fst) ∧
    ((runMaskHandler { menv with unlinkOk := f }).outcome =
       (runMaskHandler { menv with unlinkOk := g }).outcome ∧
     (runMaskHandler { menv with unlinkOk := f }).savedOutputs =
       (runMaskHandler { menv with unlinkOk := g }).savedOutputs ∧
     (runMaskHandler { menv with unlinkOk := f }).requestsSent =
       (runMaskHandler { menv with unlinkOk := g }).requestsSent) := by
  have hgf := runGenerateHandler_unlink_irrelevant env f
  have hgg := runGenerateHandler_unlink_irrelevant env g
  have hmf := runMaskHandler_unlink_irrelevant menv f
  have hmg := runMaskHandler_unlink_irrelevant menv g
  refine ⟨⟨?_, ?_⟩, ⟨?_, ?_, ?_⟩, ⟨?_, ?_, ?_⟩⟩
  · rw [runGenerateHandler_deleteAttempts, cleanupTempFiles_map_fst]
  · rw [runMaskHandler_deleteAttempts, cleanupTempFiles_map_fst]
  · rw [hgf.1, hgg.1]
  · rw [hgf.2, hgg.2]
  · rw [runGenerateHandler_deleteAttempts, runGenerateHandler_deleteAttempts,
      cleanupTempFiles_map_fst, cleanupTempFiles_map_fst]
    rfl
  · rw [hmf.1, hmg.1]
  · rw [hmf.2.1, hmg.2.1]
  · rw [hmf.2.2, hmg.2.2]

/-- No character of `lastExtChars cs` is a dot. -/
theorem dot_not_mem_lastExtChars (cs : List Char) : '.' ∉ lastExtChars cs := by
  simp only [lastExtChars, List.mem_reverse]
  intro hmem
  have := List.mem_takeWhile_imp hmem
  simp at this

/-- Splitting a character list at a dot whose right part is dot-free is
unambiguous. -/
theorem append_dot_inj : ∀ (l1 l2 e1 e2 : List Char), '.' ∉ e1 → '.' ∉ e2 →
    l1 ++ '.' :: e1 = l2 ++ '.' :: e2 → l1 = l2 ∧ e1 = e2
  | [], [], e1, e2, _, _, h => by simpa using h
  | [], b :: bs, e1, e2, h1, _, h => by
      simp only [List.nil_append, List.cons_append, List.cons.injEq] at h
      exact absurd
        (h.2 ▸ List.mem_append.2 (Or.inr (List.mem_cons_self '.' e2))) h1
  | a :: as, [], e1, e2, _, h2, h => by
      simp only [List.cons_append, List.nil_append, List.cons.injEq] at h
      exact absurd
        (h.2 ▸ List.mem_append.2 (Or.inr (List.mem_cons_self '.' e1))) h2
  | a :: as, b :: bs, e1, e2, h1, h2, h => by
      simp only [List.cons_append, List.cons.injEq] at h
      obtain ⟨hab, htail⟩ := h
      obtain ⟨hl, he⟩ := append_dot_inj as bs e1 e2 h1 h2 htail
      exact ⟨by rw [hab, hl], he⟩

/-- The temp-file path is the stem, a dot, then the last dot-component of
the uploaded name. -/
theorem save_uploaded_file_path_data (stem name : String) :
    (save_uploaded_file_path stem name).data =
      stem.data ++ '.' :: lastExtChars name.data := by
  have h1 : (save_uploaded_file_path stem name).data
      = (stem.data ++ ['.']) ++ lastExtChars name.data := rfl
  rw [h1, List.append_assoc]
  rfl

/-- Claim C8: `save_uploaded_file` creates a uniquely named temporary file
whose suffix matches the original file's extension: the path ends with a dot
followed by the original filename's extension (its last dot-component,
Python's `name.split(".")[-1]`), and distinct fresh stems chosen by
`tempfile` yield distinct paths, whatever the uploaded names. -/
theorem c8_save_path_suffix_unique (stem1 name1 stem2 name2 : String)
    (hne : stem1 ≠ stem2) :
    (save_uploaded_file_path stem1 name1).data =
      stem1.data ++ '.' :: lastExtChars name1.data ∧
    List.IsSuffix ('.' :: lastExtChars name1.data)
      (save_uploaded_file_path stem1 name1).data ∧
    save_uploaded_file_path stem1 name1 ≠ save_uploaded_file_path stem2 name2 := by
  refine ⟨save_uploaded_file_path_data stem1 name1,
    ⟨stem1.data, (save_uploaded_file_path_data stem1 name1).symm⟩, ?_⟩
  intro heq
  have hdata := congrArg String.data heq
  rw [save_uploaded_file_path_data, save_uploaded_file_path_data] at hdata
  have hsplit := append_dot_inj stem1.data stem2.data _ _
    (dot_not_mem_lastExtChars name1.data) (dot_not_mem_lastExtChars name2.data)
    hdata
  exact hne (String.ext hsplit.1)

/-- Witness for C8 at concrete stems and filenames: the path ends in
`".png"` and differs from the path of the other call. -/
theorem c8_save_path_suffix_unique_witness :
    (save_uploaded_file_path "/tmp/tmpa1b2" "photo.png").data =
      "/tmp/tmpa1b2".data ++ '.' :: lastExtChars "photo.png".data ∧
    List.IsSuffix ('.' :: lastExtChars "photo.png".data)
      (save_uploaded_file_path "/tmp/tmpa1b2" "photo.png").data ∧
    save_uploaded_file_path "/tmp/tmpa1b2" "photo.png" ≠
      save_uploaded_file_path "/tmp/tmpc3d4" "pic.gif" :=
  c8_save_path_suffix_unique "/tmp/tmpa1b2" "photo.png" "/tmp/tmpc3d4" "pic.gif"
    (by decide)

end LinkedinPosts
